import Mathlib

/-!
Verification of the ClassNode-Quiz AI quiz-generation pipeline.

This file shallowly embeds the two serverless "generate-quiz-ai" handlers
(the Gemini-backed one in `supabase/functions/generate-quiz-ai/index.ts`
and the OpenAI-backed v2 handler) together with the client-side
`handleSubmit` range check of the CreateQuizAI page, and proves or refutes
the frozen claims about them.

External effects (identity provider, teacher lookup, generative-model HTTP
call, JSON parser, database inserts, `Math.random()`) are modelled as an
explicit environment record `Env`; the relational store is an explicit
`Store` value threaded through the handler.
-/

namespace CNQ

/-- A JavaScript value as it can appear after `JSON.parse` (plus
`undefined`, which arises from missing-property access). -/

inductive Json where
  | null : Json
  | undefined : Json
  | bool (b : Bool) : Json
  | num (v : Rat) : Json
  | str (s : String) : Json
  | arr (xs : List Json) : Json
  | obj (fields : List (String × Json)) : Json

/-- JavaScript truthiness of a value (`!x` is the negation of this). -/

def truthy : Json → Bool
  | .null => false
  | .undefined => false
  | .bool b => b
  | .num v => v != 0
  | .str s => s != ""
  | .arr _ => true
  | .obj _ => true

/-- Property access `q.k` on a value that is not `null`/`undefined`:
yields the field of an object, `undefined` otherwise (as in JS). -/

def jfield : Json → String → Json
  | .obj fs, k => ((fs.find? (fun p => p.1 == k)).map Prod.snd).getD .undefined
  | _, _ => .undefined

/-- `Array.isArray`. -/

def isArr : Json → Bool
  | .arr _ => true
  | _ => false

/-- `typeof x === "number"`. -/

def isNum : Json → Bool
  | .num _ => true
  | _ => false

/-- The elements of an array value (else `[]`). -/

def arrElems : Json → List Json
  | .arr xs => xs
  | _ => []

/-- The numeric value of a number (else `0`); only used after `isNum`. -/

def numOf : Json → Rat
  | .num v => v
  | _ => 0

/-- `x.length` of an array value. -/

def arrLen (j : Json) : Nat := (arrElems j).length

/-- The backtick character (U+0060). -/

def btChar : Char := Char.ofNat 96

/-- Whitespace as stripped by JavaScript `String.prototype.trim`. -/

def jsWS (c : Char) : Bool :=
  c == ' ' || c == '\t' || c == '\n' || c == '\r' || c == '\x0b' || c == '\x0c'

/-- `trim` on a character list: drop whitespace from both ends. -/

def jsTrimL (l : List Char) : List Char :=
  ((l.dropWhile jsWS).reverse.dropWhile jsWS).reverse

/-- JavaScript `s.trim()`. -/

def jsTrimS (s : String) : String := String.mk (jsTrimL s.toList)

/-- `pat` is a prefix of `l`. -/

def lstarts : List Char → List Char → Bool
  | [], _ => true
  | _ :: _, [] => false
  | p :: ps, c :: cs => p == c && lstarts ps cs

/-- One pass of the global regex replacement `replace(/TOK\n?/g, "")`:
scan left to right; at each position remove `tok ++ "\n"` if present,
else remove `tok` if present, else keep the character.  Structural
recursion on a fuel argument; `fuel ≥ l.length` suffices since every
step consumes at least one character. -/

def stripTokAux (tok : List Char) : Nat → List Char → List Char
  | _, [] => []
  | 0, l => l
  | fuel + 1, c :: cs =>
    if lstarts (tok ++ ['\n']) (c :: cs) then
      stripTokAux tok fuel (cs.drop tok.length)
    else if lstarts tok (c :: cs) then
      stripTokAux tok fuel (cs.drop (tok.length - 1))
    else
      c :: stripTokAux tok fuel cs

/-- `replace(/TOK\n?/g, "")` over a whole character list. -/

def stripTok (tok : List Char) (l : List Char) : List Char :=
  stripTokAux tok l.length l

/-- The token of the regex `/```json\n?/g`. -/

def fjToks : List Char := "```json".toList

/-- The token of the regex `/```\n?/g`. -/

def ftToks : List Char := "```".toList

/-- The Gemini handler's cleanup of the raw model text:
`generatedText.replace(/```json\n?/g, "").replace(/```\n?/g, "").trim()`. -/

def cleanupV1 (s : String) : String :=
  jsTrimS (String.mk (stripTok ftToks (stripTok fjToks s.toList)))

/-- The v2 handler's handling of the raw model text: only
`content.trim()`, no fence stripping. -/

def cleanupV2 (s : String) : String := jsTrimS s

/-- Base-36 digit character, as produced by JS `Number.prototype.toString(36)`
(lowercase letters). -/

def base36Char (d : Nat) : Char :=
  if d < 10 then Char.ofNat (48 + d) else Char.ofNat (87 + d)

/-- The character list of `x.toString(36)` for `x = Math.random() ∈ [0,1)`,
given the (finite, exact) list of fractional base-36 digits of `x`:
`"0"` for zero, otherwise `"0." ++ digits`.  (Doubles are dyadic
rationals, so the exact base-36 expansion is finite and V8 prints it in
full for radix 36.) -/

def toStr36Chars : List Nat → List Char
  | [] => ['0']
  | d :: ds => '0' :: '.' :: (d :: ds).map base36Char

/-- `Math.random().toString(36).substring(2, 8).toUpperCase()` as a
character list (`substring(2,8)` = drop 2, take 6). -/

def roomCodeChars (digits : List Nat) : List Char :=
  (((toStr36Chars digits).drop 2).take 6).map Char.toUpper

/-- The room code generated by both handlers. -/

def roomCodeOf (digits : List Nat) : String := String.mk (roomCodeChars digits)

/-- `c` is an uppercase letter or a decimal digit. -/

def isUpperAlnum (c : Char) : Bool :=
  (decide ('A' ≤ c) && decide (c ≤ 'Z')) || (decide ('0' ≤ c) && decide (c ≤ '9'))

/-- JavaScript `a || b` for `a : string | undefined`: `b` whenever `a` is
`undefined` or the empty string. -/

def jsOrStr (v : Option String) (d : String) : String :=
  match v with
  | none => d
  | some s => if s = "" then d else s

/-- The `complexity` enumeration of `QuizParams`. -/

inductive Complexity where
  | easy : Complexity
  | medium : Complexity
  | hard : Complexity

/-- String interpolation of a complexity value. -/

def Complexity.asString : Complexity → String
  | .easy => "Easy"
  | .medium => "Medium"
  | .hard => "Hard"

/-- `params.complexity.toLowerCase()`. -/

def Complexity.lower : Complexity → String
  | .easy => "easy"
  | .medium => "medium"
  | .hard => "hard"

/-- The request body, as both handlers and the client page declare it. -/

structure QuizParams where
  subject : String
  topic : String
  numQuestions : Int
  complexity : Complexity
  timePerQuestion : Int
  title : Option String
  description : Option String

/-- The authenticated principal returned by `auth.getUser`. -/

structure UserInfo where
  id : String
  email : String

/-- Outcome of the generative-model HTTP call, as the handlers test it:
a non-success HTTP status, a success whose JSON lacks the expected
completion field, or a success carrying the raw completion text. -/

inductive GenResult where
  | httpErr (status : Nat) : GenResult
  | badShape : GenResult
  | ok (text : String) : GenResult

/-- One persisted row of the `quizzes` table (fields the handler writes). -/

structure QuizRow where
  id : Nat
  title : String
  description : String
  time_per_question : Int
  room_code : String
  created_by : String
  quiz_type : String

/-- One persisted row of the `quiz_questions` table. -/

structure QuestionRow where
  quiz_id : Nat
  text : Json
  options : Json
  correct_option : Json
  order_num : Nat

/-- The relational store, with the id the next quiz insert will receive. -/

structure Store where
  quizzes : List QuizRow
  questions : List QuestionRow
  nextId : Nat

/-- The environment of one request: the request itself plus the fixed
responses of every external collaborator the handler consults. -/

structure Env where
  method : String
  authHeader : Option String
  authUser : Option UserInfo
  teacher : Option String
  body : QuizParams
  apiKey : Option String
  gen : String → GenResult
  parse : String → Option Json
  randomDigits : List Nat
  quizInsertFails : Bool
  questionsInsertFails : Bool

/-- The summary object of a success response. -/

structure QuizSummary where
  id : Nat
  title : String
  description : String
  roomCode : String
  questionsCount : Nat

/-- The JSON body of a handler response. -/

inductive RespBody where
  | failure (error : String) : RespBody
  | success (quiz : QuizSummary) (questions : List Json) : RespBody

/-- An HTTP response (body `none` for the CORS preflight reply). -/

structure HttpResp where
  status : Nat
  body : Option RespBody

/-- Whether a response is a failure response `{success: false, error}`. -/

def isFailB (r : HttpResp) : Bool :=
  match r.body with
  | some (.failure _) => true
  | _ => false

/-- The Gemini handler's prompt template. -/

def buildPromptV1 (p : QuizParams) : String :=
  "Create " ++ toString p.numQuestions ++ " multiple choice questions about "
    ++ p.topic ++ " in " ++ p.subject ++ ". \n    Difficulty level: "
    ++ p.complexity.asString
    ++ "\n    \n    Requirements:\n    - Each question should have exactly 4 options (A, B, C, D)\n    - Questions should be clear and educational\n    - Options should be plausible but only one correct\n    - Cover different aspects of the topic\n    - Appropriate for "
    ++ p.complexity.lower
    ++ " level students\n    \n    Format your response as a JSON array with this exact structure:\n    [\n      \x7b\n        \"text\": \"Question text here?\",\n        \"options\": [\"Option A\", \"Option B\", \"Option C\", \"Option D\"],\n        \"correctOption\": 0\n      \x7d\n    ]\n    \n    Where correctOption is the index (0-3) of the correct answer.\n    \n    Return only the JSON array, no additional text or formatting."

/-- The v2 handler's prompt template. -/

def buildPromptV2 (p : QuizParams) : String :=
  "\nCreate " ++ toString p.numQuestions ++ " multiple choice questions about "
    ++ p.topic ++ " \nin " ++ p.subject ++ ". Difficulty: " ++ p.complexity.asString
    ++ ".\n\nReturn ONLY a JSON array in this exact format (no markdown):\n\n[\n  \x7b\n    \"text\": \"Question?\",\n    \"options\": [\"A\", \"B\", \"C\", \"D\"],\n    \"correctOption\": 0\n  \x7d\n]\n"

/-- Default title when the caller supplied none (or an empty string). -/

def defaultTitle (p : QuizParams) : String :=
  "AI Generated: " ++ p.subject ++ " - " ++ p.topic

/-- Default description when the caller supplied none (or an empty string). -/

def defaultDescription (p : QuizParams) : String :=
  "AI-generated quiz on " ++ p.topic ++ " (" ++ p.complexity.asString ++ " level)"

/-- `params.title || defaultTitle` as both handlers compute it. -/

def quizTitleOf (p : QuizParams) : String := jsOrStr p.title (defaultTitle p)

/-- `params.description || defaultDescription` as both handlers compute it. -/

def quizDescriptionOf (p : QuizParams) : String :=
  jsOrStr p.description (defaultDescription p)

/-- A question that passed the Gemini handler's structural validation;
the handler keeps exactly the three accessed fields. -/

structure VQuestion where
  text : Json
  options : List Json
  correctOption : Rat

/-- The object `{text, options, correctOption}` the validating `map`
returns for each question (also the shape serialized in the response). -/

def vqToJson (q : VQuestion) : Json :=
  .obj [("text", q.text), ("options", .arr q.options),
        ("correctOption", .num q.correctOption)]

/-- The Gemini handler's structural validation (`questions.map` with
`throw`), starting at index `i`.  `q.text` on a `null`/`undefined`
element raises a TypeError, which the surrounding catch turns into a 500
like any other thrown error. -/

def validateV1 (i : Nat) : List Json → Except String (List VQuestion)
  | [] => .ok []
  | q :: rest =>
    match q with
    | .null => .error "TypeError: Cannot read properties of null"
    | .undefined => .error "TypeError: Cannot read properties of undefined"
    | _ =>
      let t := jfield q "text"
      let o := jfield q "options"
      let c := jfield q "correctOption"
      if !(truthy t && isArr o && arrLen o == 4 && isNum c) then
        .error ("Invalid question structure at index " ++ toString i)
      else if decide (numOf c < 0) || decide (3 < numOf c) then
        .error ("Invalid correct option at question " ++ toString (i + 1))
      else
        (validateV1 (i + 1) rest).map
          (fun vqs => ⟨t, arrElems o, numOf c⟩ :: vqs)

/-- Whether one element passes the Gemini validator's per-element check
(the code's actual acceptance condition). -/

def codeValid (q : Json) : Bool :=
  match q with
  | .null => false
  | .undefined => false
  | _ =>
    (truthy (jfield q "text") && isArr (jfield q "options")
      && arrLen (jfield q "options") == 4 && isNum (jfield q "correctOption"))
    && !(decide (numOf (jfield q "correctOption") < 0)
         || decide (3 < numOf (jfield q "correctOption")))

/-- A question that violates the schema in the sense of the claims:
its `options` is an array of length ≠ 4, or its `correctOption` is a
number outside `[0, options.length)`. -/

def claimViolationB (q : Json) : Bool :=
  match jfield q "options" with
  | .arr l =>
    (l.length != 4)
      || (isNum (jfield q "correctOption")
          && (decide (numOf (jfield q "correctOption") < 0)
              || decide ((l.length : Rat) ≤ numOf (jfield q "correctOption"))))
  | _ => false

/-- The claims' (spec-side) per-element acceptance condition: `text` a
non-empty string, `options` exactly 4 strings, `correctOption` an
integer in `[0,3]`.  Used only to compare the spec's validator contract
against the code's. -/

def specValidB (q : Json) : Bool :=
  (match jfield q "text" with
   | .str s => s != ""
   | _ => false)
  && (match jfield q "options" with
      | .arr l => l.length == 4 && l.all (fun o => isArr o == false && isNum o == false
          && (match o with | .str _ => true | _ => false))
      | _ => false)
  && (match jfield q "correctOption" with
      | .num v => v.den == 1 && decide (0 ≤ v) && decide (v ≤ 3)
      | _ => false)

/-- The `questionsToInsert` rows of the Gemini handler, built from the
validated questions with 1-based `order_num`. -/

def rowsFrom (quizId : Nat) : Nat → List VQuestion → List QuestionRow
  | _, [] => []
  | i, q :: rest =>
    ⟨quizId, q.text, .arr q.options, .num q.correctOption, i + 1⟩
      :: rowsFrom quizId (i + 1) rest

/-- One `questionsToInsert` element of the v2 handler: the three property
accesses on an unvalidated parsed element (TypeError on `null`). -/

def rowV2 (quizId : Nat) (i : Nat) (q : Json) : Except String QuestionRow :=
  match q with
  | .null => .error "TypeError: Cannot read properties of null"
  | .undefined => .error "TypeError: Cannot read properties of undefined"
  | _ => .ok ⟨quizId, jfield q "text", jfield q "options",
              jfield q "correctOption", i + 1⟩

/-- The v2 handler's `questions.map((q, i) => ...)` over the raw parsed
elements. -/

def buildRowsV2 (quizId : Nat) : Nat → List Json → Except String (List QuestionRow)
  | _, [] => .ok []
  | i, q :: rest =>
    match rowV2 quizId i q with
    | .error m => .error m
    | .ok r => (buildRowsV2 quizId (i + 1) rest).map (fun rs => r :: rs)

/-- The Gemini handler's persistence step: room code, defaults, quiz
insert, question batch insert, compensating delete on batch failure. -/

def persistV1 (env : Env) (user : UserInfo) (store : Store)
    (vqs : List VQuestion) : Except (String × Store) (HttpResp × Store) :=
  let rc := roomCodeOf env.randomDigits
  let qt := quizTitleOf env.body
  let qd := quizDescriptionOf env.body
  if env.quizInsertFails then .error ("Failed to create quiz", store)
  else
    let quizId := store.nextId
    let row : QuizRow := ⟨quizId, qt, qd, env.body.timePerQuestion, rc,
                          user.id, "classnode"⟩
    let store1 : Store := ⟨store.quizzes ++ [row], store.questions,
                           store.nextId + 1⟩
    let rows := rowsFrom quizId 0 vqs
    if env.questionsInsertFails then
      .error ("Failed to create quiz questions",
        ⟨store1.quizzes.filter (fun q => q.id != quizId), store1.questions,
         store1.nextId⟩)
    else
      .ok (⟨200, some (.success ⟨quizId, qt, qd, rc, vqs.length⟩
              (vqs.map vqToJson))⟩,
           ⟨store1.quizzes, store1.questions ++ rows, store1.nextId⟩)

/-- The body of the Gemini handler's `try` block after the auth/teacher
checks; a `.error` is a thrown exception caught by the 500 handler,
carrying the store as it stands at the throw. -/

def handlerV1Body (env : Env) (user : UserInfo) (store : Store) :
    Except (String × Store) (HttpResp × Store) :=
  match env.apiKey with
  | none => .error ("Gemini API key not configured", store)
  | some _ =>
    match env.gen (buildPromptV1 env.body) with
    | .httpErr s => .error ("Gemini API error: " ++ toString s, store)
    | .badShape => .error ("Invalid response from Gemini API", store)
    | .ok raw =>
      match env.parse (cleanupV1 raw) with
      | none => .error ("Failed to parse AI-generated questions", store)
      | some (.arr xs) =>
        if xs.length == 0 then
          .error ("AI did not generate valid questions", store)
        else
          match validateV1 0 xs with
          | .error m => .error (m, store)
          | .ok vqs => persistV1 env user store vqs
      | some _ => .error ("AI did not generate valid questions", store)

/-- The Gemini-backed handler (`supabase/functions/generate-quiz-ai`):
CORS preflight, direct 401/403 returns, then the try/catch body. -/

def handlerV1 (env : Env) (store : Store) : HttpResp × Store :=
  if env.method = "OPTIONS" then (⟨200, none⟩, store)
  else
    match env.authHeader with
    | none => (⟨401, some (.failure "No authorization header")⟩, store)
    | some _ =>
      match env.authUser with
      | none => (⟨401, some (.failure "Authentication failed")⟩, store)
      | some user =>
        match env.teacher with
        | none => (⟨403, some (.failure "Access denied: Teachers only")⟩, store)
        | some _ =>
          match handlerV1Body env user store with
          | .ok rs => rs
          | .error (m, s) => (⟨500, some (.failure m)⟩, s)

/-- The v2 handler's persistence step: quiz insert, then the unvalidated
row construction (which may throw after the quiz insert, with no
cleanup), then the batch insert with compensating delete. -/

def persistV2 (env : Env) (user : UserInfo) (store : Store)
    (xs : List Json) : Except (String × Store) (HttpResp × Store) :=
  let rc := roomCodeOf env.randomDigits
  let qt := quizTitleOf env.body
  let qd := quizDescriptionOf env.body
  if env.quizInsertFails then .error ("Failed to create quiz", store)
  else
    let quizId := store.nextId
    let row : QuizRow := ⟨quizId, qt, qd, env.body.timePerQuestion, rc,
                          user.id, "classnode"⟩
    let store1 : Store := ⟨store.quizzes ++ [row], store.questions,
                           store.nextId + 1⟩
    match buildRowsV2 quizId 0 xs with
    | .error m => .error (m, store1)
    | .ok rows =>
      if env.questionsInsertFails then
        .error ("Failed to save questions",
          ⟨store1.quizzes.filter (fun q => q.id != quizId), store1.questions,
           store1.nextId⟩)
      else
        .ok (⟨200, some (.success ⟨quizId, qt, qd, rc, xs.length⟩ xs)⟩,
             ⟨store1.quizzes, store1.questions ++ rows, store1.nextId⟩)

/-- The whole `try` block of the v2 handler: auth and teacher failures
are thrown, so every failure surfaces through the 500 catch handler. -/

def handlerV2Body (env : Env) (store : Store) :
    Except (String × Store) (HttpResp × Store) :=
  match env.authHeader with
  | none => .error ("No authorization header", store)
  | some _ =>
    match env.authUser with
    | none => .error ("Authentication failed", store)
    | some user =>
      match env.teacher with
      | none => .error ("Access denied: Teachers only", store)
      | some _ =>
        match env.apiKey with
        | none => .error ("OPENAI_API_KEY not configured in Supabase secrets", store)
        | some _ =>
          match env.gen (buildPromptV2 env.body) with
          | .httpErr s => .error ("OpenAI API error: " ++ toString s, store)
          | .badShape => .error ("TypeError: Cannot read properties of undefined", store)
          | .ok raw =>
            match env.parse (cleanupV2 raw) with
            | none => .error ("AI returned invalid JSON", store)
            | some (.arr xs) =>
              if xs.length == 0 then
                .error ("AI did not generate valid questions", store)
              else persistV2 env user store xs
            | some _ => .error ("AI did not generate valid questions", store)

/-- The OpenAI-backed v2 handler. -/

def handlerV2 (env : Env) (store : Store) : HttpResp × Store :=
  if env.method = "OPTIONS" then (⟨200, none⟩, store)
  else
    match handlerV2Body env store with
    | .ok rs => rs
    | .error (m, s) => (⟨500, some (.failure m)⟩, s)

/-- What the CreateQuizAI page's `handleSubmit` does before any network
call: either an early local error toast, or it proceeds to the session
refresh and the edge-function invocation with the form data as body. -/

inductive SubmitAction where
  | localError (msg : String) : SubmitAction
  | network (body : QuizParams) : SubmitAction

/-- The client-side checks at the top of `handleSubmit`. -/

def handleSubmitClient (fd : QuizParams) : SubmitAction :=
  if jsTrimS fd.subject == "" || jsTrimS fd.topic == "" then
    .localError "Please fill in all required fields"
  else if decide (fd.numQuestions < 1) || decide (20 < fd.numQuestions) then
    .localError "Number of questions must be between 1 and 20"
  else
    .network fd

/-! ### Specification accessors and concrete fixtures -/

def WFq (q : Json) : Prop :=
  ∃ t os co, q = Json.obj [("text", Json.str t), ("options", Json.arr os),
      ("correctOption", Json.num co)]
    ∧ t ≠ "" ∧ os.length = 4 ∧ 0 ≤ co ∧ co ≤ 3

/-- The question batch the Gemini pipeline parses from the model output (when generation and parsing succeed with an array). -/
def v1Parsed (env : Env) : Option (List Json) :=
  match env.gen (buildPromptV1 env.body) with
  | .ok t =>
    match env.parse (cleanupV1 t) with
    | some (.arr xs) => some xs
    | _ => none
  | _ => none

/-- Same for the v2 handler (different prompt, trim-only cleanup). -/
def v2Parsed (env : Env) : Option (List Json) :=
  match env.gen (buildPromptV2 env.body) with
  | .ok t =>
    match env.parse (cleanupV2 t) with
    | some (.arr xs) => some xs
    | _ => none
  | _ => none

/-- The parser yields no null or undefined array elements (true of any real JSON.parse result without a literal null). -/
def parseArrOk (env : Env) : Prop :=
  ∀ s xs, env.parse s = some (.arr xs) → ∀ q ∈ xs, q ≠ Json.null ∧ q ≠ Json.undefined

/-- A structurally valid parsed question. -/
def qGood : Json :=
  .obj [("text", .str "Q"), ("options", .arr [.str "a", .str "b", .str "c", .str "d"]),
        ("correctOption", .num 0)]

/-- A parsed question whose options array has only 3 elements. -/
def qBad3 : Json :=
  .obj [("text", .str "Q"), ("options", .arr [.str "a", .str "b", .str "c"]),
        ("correctOption", .num 0)]

/-- A parsed question whose correctOption is the non-integer 1/2. -/
def qHalf : Json :=
  .obj [("text", .str "Q"), ("options", .arr [.str "a", .str "b", .str "c", .str "d"]),
        ("correctOption", .num (Rat.mk' 1 2 (by decide) (by decide)))]

/-- An empty store whose next quiz id is 1. -/
def store0 : Store := ⟨[], [], 1⟩

/-- A well-formed request body asking for 3 questions. -/
def paramsEx : QuizParams :=
  { subject := "Math", topic := "Algebra", numQuestions := 3,
    complexity := .easy, timePerQuestion := 30, title := none, description := none }

/-- An environment in which every stage succeeds, but the model returns only 2 questions although 3 were requested. -/
def envOK : Env :=
  { method := "POST", authHeader := some "Bearer t",
    authUser := some ⟨"u1", "t@example.com"⟩, teacher := some "u1",
    body := paramsEx, apiKey := some "k", gen := fun _ => .ok "[]",
    parse := fun _ => some (.arr [qGood, qGood]),
    randomDigits := [10, 11, 12, 13, 14, 15],
    quizInsertFails := false, questionsInsertFails := false }

/-- Same environment but the parsed batch holds a 3-option question. -/
def envBadOpts : Env := { envOK with parse := fun _ => some (.arr [qBad3]) }

/-- Same environment but without an Authorization header. -/
def envNoAuth : Env := { envOK with authHeader := none }

/-- Same environment but the question-batch insert fails. -/
def envQFail : Env := { envOK with questionsInsertFails := true }

/-- The length of the questions list of a success response body. -/
def respQuestionsLen : HttpResp → Option Nat
  | ⟨_, some (.success _ qs)⟩ => some qs.length
  | _ => none

/-- The quiz.questionsCount field of a success response body. -/
def respCount : HttpResp → Option Nat
  | ⟨_, some (.success qz _)⟩ => some qz.questionsCount
  | _ => none

/-- A submitted form with a non-positive timePerQuestion. -/
def fdTime0 : QuizParams :=
  { subject := "Math", topic := "Algebra", numQuestions := 5,
    complexity := .medium, timePerQuestion := 0, title := none,
    description := none }

/-- A submitted form asking for 0 questions. -/
def fdLow : QuizParams := { fdTime0 with numQuestions := 0, timePerQuestion := 30 }

/-- Boundary form with numQuestions = 1. -/
def fdOne : QuizParams := { fdTime0 with numQuestions := 1, timePerQuestion := 30 }

/-- Boundary form with numQuestions = 20. -/
def fdTwenty : QuizParams := { fdTime0 with numQuestions := 20, timePerQuestion := 30 }

/-! ### Lemmas about the fence-stripping and trimming primitives -/

theorem lstarts_append_self (l r : List Char) : lstarts l (l ++ r) = true := by
  induction l with
  | nil => rfl
  | cons c cs ih => simp [lstarts, ih]

theorem lstarts_false_of_head_ne {p c : Char} (h : p ≠ c) (ps cs : List Char) :
    lstarts (p :: ps) (c :: cs) = false := by
  simp [lstarts, h]

theorem stripTokAux_nil (tok : List Char) (fuel : Nat) :
    stripTokAux tok fuel [] = [] := by
  cases fuel <;> rfl

theorem stripTok_nil (tok : List Char) : stripTok tok [] = [] := rfl

theorem stripTokAux_fuel (tok : List Char) (ht : tok ≠ []) :
    ∀ f1 : Nat, ∀ l : List Char, ∀ f2 : Nat, l.length ≤ f1 → l.length ≤ f2 →
      stripTokAux tok f1 l = stripTokAux tok f2 l := by
  intro f1
  induction f1 with
  | zero =>
    intro l f2 h1 _
    have : l = [] := List.eq_nil_of_length_eq_zero (Nat.le_zero.mp h1)
    subst this
    rw [stripTokAux_nil, stripTokAux_nil]
  | succ f ih =>
    intro l f2 h1 h2
    match l with
    | [] => rw [stripTokAux_nil, stripTokAux_nil]
    | c :: cs =>
      have h1a : cs.length + 1 ≤ f + 1 := by simpa using h1
      match f2, h2 with
      | g + 1, h2 =>
        have h2a : cs.length + 1 ≤ g + 1 := by simpa using h2
        have htl : 1 ≤ tok.length := by
          cases tok with
          | nil => exact absurd rfl ht
          | cons _ _ => simp
        simp only [stripTokAux]
        by_cases hnl : lstarts (tok ++ ['\n']) (c :: cs) = true
        · rw [if_pos hnl, if_pos hnl]
          apply ih
          · rw [List.length_drop]; omega
          · rw [List.length_drop]; omega
        · rw [if_neg hnl, if_neg hnl]
          by_cases hn : lstarts tok (c :: cs) = true
          · rw [if_pos hn, if_pos hn]
            apply ih
            · rw [List.length_drop]; omega
            · rw [List.length_drop]; omega
          · rw [if_neg hn, if_neg hn]
            have : stripTokAux tok f cs = stripTokAux tok g cs := by
              apply ih <;> omega
            rw [this]

theorem stripTokAux_append_no_bt (tk : List Char)
    (l : List Char) (hl : ∀ c ∈ l, c ≠ btChar) :
    ∀ f : Nat, ∀ r : List Char,
      stripTokAux (btChar :: tk) (l.length + f) (l ++ r)
        = l ++ stripTokAux (btChar :: tk) f r := by
  induction l with
  | nil => intro f r; simp
  | cons c cs ih =>
    intro f r
    have hc : c ≠ btChar := hl c (List.mem_cons_self c cs)
    have hcs : ∀ x ∈ cs, x ≠ btChar := fun x hx => hl x (List.mem_cons_of_mem c hx)
    have h1 : lstarts ((btChar :: tk) ++ ['\n']) (c :: (cs ++ r)) = false := by
      rw [List.cons_append]
      exact lstarts_false_of_head_ne (fun h => hc h.symm) _ _
    have h2 : lstarts (btChar :: tk) (c :: (cs ++ r)) = false := by
      exact lstarts_false_of_head_ne (fun h => hc h.symm) _ _
    have hlen : (c :: cs).length + f = (cs.length + f) + 1 := by
      simp only [List.length_cons]; omega
    rw [hlen, List.cons_append]
    simp only [stripTokAux, h1, h2, Bool.false_eq_true, if_false]
    rw [ih hcs f r, List.cons_append]

theorem stripTok_append_no_bt (tk : List Char) (l r : List Char)
    (hl : ∀ c ∈ l, c ≠ btChar) :
    stripTok (btChar :: tk) (l ++ r) = l ++ stripTok (btChar :: tk) r := by
  unfold stripTok
  rw [List.length_append]
  exact stripTokAux_append_no_bt tk l hl r.length r

theorem stripTok_no_bt (tk : List Char) (l : List Char)
    (hl : ∀ c ∈ l, c ≠ btChar) :
    stripTok (btChar :: tk) l = l := by
  have h := stripTok_append_no_bt tk l [] hl
  rw [List.append_nil, stripTok_nil, List.append_nil] at h
  exact h

theorem stripTok_head (tok : List Char) (ht : tok ≠ []) (rest : List Char) :
    stripTok tok ((tok ++ ['\n']) ++ rest) = stripTok tok rest := by
  match tok, ht with
  | t0 :: tk, _ =>
    have hshape : ((t0 :: tk) ++ ['\n']) ++ rest
        = t0 :: ((tk ++ ['\n']) ++ rest) := by simp
    unfold stripTok
    rw [hshape]
    have hlen : (t0 :: ((tk ++ ['\n']) ++ rest)).length
        = ((tk ++ ['\n']).length + rest.length) + 1 := by
      simp only [List.length_cons, List.length_append]
    rw [hlen]
    simp only [stripTokAux]
    have hpre : lstarts ((t0 :: tk) ++ ['\n']) (t0 :: ((tk ++ ['\n']) ++ rest)) = true := by
      have h : t0 :: ((tk ++ ['\n']) ++ rest) = ((t0 :: tk) ++ ['\n']) ++ rest := by simp
      rw [h]
      exact lstarts_append_self _ _
    rw [if_pos hpre]
    have hdrop : ((tk ++ ['\n']) ++ rest).drop (t0 :: tk).length = rest := by
      have h : (t0 :: tk).length = (tk ++ ['\n']).length := by simp
      rw [h]
      exact List.drop_left _ _
    rw [hdrop]
    exact stripTokAux_fuel (t0 :: tk) (by simp) _ rest rest.length
      (Nat.le_add_left _ _) (Nat.le_refl _)

theorem jsTrimL_append_ws (l : List Char) (c : Char) (hc : jsWS c = true) :
    jsTrimL (l ++ [c]) = jsTrimL l := by
  unfold jsTrimL
  rw [List.dropWhile_append]
  by_cases h : (l.dropWhile jsWS).isEmpty
  · rw [if_pos h]
    have h2 : l.dropWhile jsWS = [] := by
      cases hd : l.dropWhile jsWS with
      | nil => rfl
      | cons a as => rw [hd] at h; simp [List.isEmpty] at h
    have h3 : List.dropWhile jsWS [c] = [] := by simp [List.dropWhile, hc]
    rw [h2, h3]
  · rw [if_neg h]
    have hrev : (l.dropWhile jsWS ++ [c]).reverse = c :: (l.dropWhile jsWS).reverse := by
      simp
    rw [hrev]
    have hdrop : (c :: (l.dropWhile jsWS).reverse).dropWhile jsWS
        = ((l.dropWhile jsWS).reverse).dropWhile jsWS := by
      simp [List.dropWhile, hc]
    rw [hdrop]

/-! ### Lemmas about the Gemini handler's validator -/

theorem isOk_map {ε α β : Type} (f : α → β) (e : Except ε α) :
    (e.map f).isOk = e.isOk := by
  cases e <;> rfl

theorem validateV1_cons_nonnull (i : Nat) (q : Json) (rest : List Json)
    (hq : q ≠ .null) (hq2 : q ≠ .undefined) :
    validateV1 i (q :: rest) =
      (if !(truthy (jfield q "text") && isArr (jfield q "options")
            && arrLen (jfield q "options") == 4 && isNum (jfield q "correctOption")) then
        .error ("Invalid question structure at index " ++ toString i)
      else if decide (numOf (jfield q "correctOption") < 0)
              || decide (3 < numOf (jfield q "correctOption")) then
        .error ("Invalid correct option at question " ++ toString (i + 1))
      else
        (validateV1 (i + 1) rest).map
          (fun vqs => ⟨jfield q "text", arrElems (jfield q "options"),
                       numOf (jfield q "correctOption")⟩ :: vqs)) := by
  cases q with
  | null => exact absurd rfl hq
  | undefined => exact absurd rfl hq2
  | bool b => rfl
  | num v => rfl
  | str s => rfl
  | arr xs => rfl
  | obj fs => rfl

theorem codeValid_nonnull (q : Json) (hq : q ≠ .null) (hq2 : q ≠ .undefined) :
    codeValid q =
      ((truthy (jfield q "text") && isArr (jfield q "options")
          && arrLen (jfield q "options") == 4 && isNum (jfield q "correctOption"))
        && !(decide (numOf (jfield q "correctOption") < 0)
             || decide (3 < numOf (jfield q "correctOption")))) := by
  cases q with
  | null => exact absurd rfl hq
  | undefined => exact absurd rfl hq2
  | bool b => rfl
  | num v => rfl
  | str s => rfl
  | arr xs => rfl
  | obj fs => rfl

theorem validateV1_ok_iff (xs : List Json) : ∀ i : Nat,
    ((validateV1 i xs).isOk = true ↔ ∀ q ∈ xs, codeValid q = true) := by
  induction xs with
  | nil => intro i; simp [validateV1, Except.isOk, Except.toBool]
  | cons q rest ih =>
    intro i
    by_cases hq : q = Json.null
    · subst hq
      simp [validateV1, Except.isOk, Except.toBool, codeValid]
    by_cases hq2 : q = Json.undefined
    · subst hq2
      simp [validateV1, Except.isOk, Except.toBool, codeValid]
    rw [validateV1_cons_nonnull i q rest hq hq2]
    by_cases hstruct : (truthy (jfield q "text") && isArr (jfield q "options")
        && arrLen (jfield q "options") == 4 && isNum (jfield q "correctOption")) = true
    · rw [if_neg (by simp [hstruct])]
      by_cases hrange : (decide (numOf (jfield q "correctOption") < 0)
          || decide (3 < numOf (jfield q "correctOption"))) = true
      · rw [if_pos hrange]
        have hcv : codeValid q = false := by
          rw [codeValid_nonnull q hq hq2, hstruct, hrange]
          rfl
        simp [Except.isOk, Except.toBool, hcv]
      · rw [if_neg hrange]
        have hr2 : (decide (numOf (jfield q "correctOption") < 0)
            || decide (3 < numOf (jfield q "correctOption"))) = false :=
          Bool.of_not_eq_true hrange
        have hcv : codeValid q = true := by
          rw [codeValid_nonnull q hq hq2, hstruct, hr2]
          rfl
        rw [isOk_map]
        simp [hcv, ih (i + 1)]
    · rw [if_pos (by simp [Bool.of_not_eq_true hstruct])]
      have hcv : codeValid q = false := by
        rw [codeValid_nonnull q hq hq2, Bool.of_not_eq_true hstruct]
        rfl
      simp [Except.isOk, Except.toBool, hcv]

theorem validateV1_length (xs : List Json) : ∀ i vqs,
    validateV1 i xs = .ok vqs → vqs.length = xs.length := by
  induction xs with
  | nil =>
    intro i vqs h
    simp [validateV1] at h
    subst h
    rfl
  | cons q rest ih =>
    intro i vqs h
    by_cases hq : q = Json.null
    · subst hq; simp [validateV1] at h
    by_cases hq2 : q = Json.undefined
    · subst hq2; simp [validateV1] at h
    rw [validateV1_cons_nonnull i q rest hq hq2] at h
    by_cases hstruct : (truthy (jfield q "text") && isArr (jfield q "options")
        && arrLen (jfield q "options") == 4 && isNum (jfield q "correctOption")) = true
    · rw [if_neg (by simp [hstruct])] at h
      by_cases hrange : (decide (numOf (jfield q "correctOption") < 0)
          || decide (3 < numOf (jfield q "correctOption"))) = true
      · rw [if_pos hrange] at h
        exact absurd h (by simp)
      · rw [if_neg hrange] at h
        cases hrec : validateV1 (i + 1) rest with
        | error m => rw [hrec] at h; exact absurd h (by simp [Except.map])
        | ok vqs2 =>
          rw [hrec] at h
          simp only [Except.map] at h
          cases h
          simp [ih (i + 1) vqs2 hrec]
    · rw [if_pos (by simp [Bool.of_not_eq_true hstruct])] at h
      exact absurd h (by simp)

theorem claimViolation_not_codeValid (q : Json)
    (h : claimViolationB q = true) : codeValid q = false := by
  by_cases hq : q = Json.null
  · subst hq; rfl
  by_cases hq2 : q = Json.undefined
  · subst hq2; rfl
  rw [codeValid_nonnull q hq hq2]
  cases ho : jfield q "options" with
  | arr l =>
    rw [claimViolationB, ho] at h
    have h2 : l.length ≠ 4 ∨ (isNum (jfield q "correctOption") = true
        ∧ (numOf (jfield q "correctOption") < 0
           ∨ (l.length : Rat) ≤ numOf (jfield q "correctOption"))) := by
      simpa using h
    by_cases hlen : l.length = 4
    · have hco : numOf (jfield q "correctOption") < 0
          ∨ (l.length : Rat) ≤ numOf (jfield q "correctOption") := by
        rcases h2 with hne | hgood
        · exact absurd hlen hne
        · exact hgood.2
      have hrange : (decide (numOf (jfield q "correctOption") < 0)
          || decide (3 < numOf (jfield q "correctOption"))) = true := by
        rcases hco with hlt | hge
        · exact Bool.or_eq_true_iff.mpr (Or.inl (decide_eq_true hlt))
        · apply Bool.or_eq_true_iff.mpr
          right
          apply decide_eq_true
          have h4 : ((4 : Nat) : Rat) ≤ numOf (jfield q "correctOption") := by
            rw [hlen] at hge
            exact_mod_cast hge
          have h34 : (3 : Rat) < ((4 : Nat) : Rat) := by norm_num
          exact lt_of_lt_of_le h34 h4
      rw [hrange]
      simp
    · have hlf : (arrLen (Json.arr l) == 4) = false := by
        simpa [arrLen, arrElems] using hlen
      rw [hlf]
      simp
  | null => rw [claimViolationB, ho] at h; exact absurd h (by simp)
  | undefined => rw [claimViolationB, ho] at h; exact absurd h (by simp)
  | bool b => rw [claimViolationB, ho] at h; exact absurd h (by simp)
  | num v => rw [claimViolationB, ho] at h; exact absurd h (by simp)
  | str s => rw [claimViolationB, ho] at h; exact absurd h (by simp)
  | obj fs => rw [claimViolationB, ho] at h; exact absurd h (by simp)

theorem validateV1_err_of_violation (xs : List Json) (i : Nat)
    (h : ∃ q ∈ xs, claimViolationB q = true) :
    (validateV1 i xs).isOk = false := by
  rcases h with ⟨q, hmem, hviol⟩
  cases hok : (validateV1 i xs).isOk with
  | false => rfl
  | true =>
    have := (validateV1_ok_iff xs i).mp hok q hmem
    rw [claimViolation_not_codeValid q hviol] at this
    exact absurd this (by simp)

/-- Well-formedness of one parsed question in the sense needed for the
variant-equivalence theorem: exactly the three expected fields, in the
handlers' order, with a non-empty text and an in-range correct option. -/

theorem validateV1_wf (xs : List Json) : ∀ i : Nat, (∀ q ∈ xs, WFq q) →
    ∃ vqs, validateV1 i xs = .ok vqs ∧ vqs.map vqToJson = xs
      ∧ ∀ quizId j, buildRowsV2 quizId j xs = .ok (rowsFrom quizId j vqs) := by
  induction xs with
  | nil =>
    intro i _
    exact ⟨[], rfl, rfl, fun quizId j => rfl⟩
  | cons q rest ih =>
    intro i hwf
    rcases hwf q (List.mem_cons_self q rest) with ⟨t, os, co, hq, ht, hos, hco0, hco3⟩
    rcases ih (i + 1) (fun p hp => hwf p (List.mem_cons_of_mem q hp))
      with ⟨vqs, hval, hmap, hrows⟩
    subst hq
    have htext : jfield (Json.obj [("text", Json.str t), ("options", Json.arr os),
        ("correctOption", Json.num co)]) "text" = Json.str t := rfl
    have hopts : jfield (Json.obj [("text", Json.str t), ("options", Json.arr os),
        ("correctOption", Json.num co)]) "options" = Json.arr os := rfl
    have hcopt : jfield (Json.obj [("text", Json.str t), ("options", Json.arr os),
        ("correctOption", Json.num co)]) "correctOption" = Json.num co := rfl
    refine ⟨⟨Json.str t, os, co⟩ :: vqs, ?_, ?_, ?_⟩
    · rw [validateV1_cons_nonnull i _ rest (by simp) (by simp)]
      rw [htext, hopts, hcopt]
      have hstruct : (truthy (Json.str t) && isArr (Json.arr os)
          && arrLen (Json.arr os) == 4 && isNum (Json.num co)) = true := by
        simp [truthy, isArr, isNum, arrLen, arrElems, hos, ht]
      rw [hstruct]
      have hrange : (decide (numOf (Json.num co) < 0)
          || decide (3 < numOf (Json.num co))) = false := by
        simp only [numOf, Bool.or_eq_false_iff, decide_eq_false_iff_not, not_lt]
        exact ⟨hco0, hco3⟩
      rw [hrange]
      simp [hval, Except.map, numOf, arrElems]
    · simp [vqToJson, hmap]
    · intro quizId j
      have hrow : rowV2 quizId j (Json.obj [("text", Json.str t),
          ("options", Json.arr os), ("correctOption", Json.num co)])
          = .ok ⟨quizId, Json.str t, Json.arr os, Json.num co, j + 1⟩ := rfl
      rw [buildRowsV2, hrow, hrows quizId (j + 1)]
      rfl

theorem buildRowsV2_ok (xs : List Json)
    (h : ∀ q ∈ xs, q ≠ Json.null ∧ q ≠ Json.undefined) :
    ∀ quizId i, ∃ rows, buildRowsV2 quizId i xs = .ok rows := by
  induction xs with
  | nil => intro quizId i; exact ⟨[], rfl⟩
  | cons q rest ih =>
    intro quizId i
    rcases ih (fun p hp => h p (List.mem_cons_of_mem q hp)) quizId (i + 1)
      with ⟨rows, hrows⟩
    have hq := h q (List.mem_cons_self q rest)
    have hrow : rowV2 quizId i q = .ok ⟨quizId, jfield q "text",
        jfield q "options", jfield q "correctOption", i + 1⟩ := by
      cases q with
      | null => exact absurd rfl hq.1
      | undefined => exact absurd rfl hq.2
      | bool b => rfl
      | num v => rfl
      | str s => rfl
      | arr ys => rfl
      | obj fs => rfl
    rw [buildRowsV2, hrow, hrows]
    exact ⟨_, rfl⟩

/-! ### Outcome analysis of the two handlers -/

/-- The parser yields no `null`/`undefined` array elements (true of any
real `JSON.parse` result that does not contain a literal `null`). -/

theorem bodyV1_cases (env : Env) (user : UserInfo) (store : Store) :
    (∃ m, handlerV1Body env user store = .error (m, store)) ∨
    (∃ xs vqs, v1Parsed env = some xs ∧ xs ≠ []
      ∧ validateV1 0 xs = .ok vqs
      ∧ handlerV1Body env user store = persistV1 env user store vqs) := by
  unfold handlerV1Body v1Parsed
  rcases hk : env.apiKey with _ | k
  · exact Or.inl ⟨"Gemini API key not configured", by simp [hk]⟩
  rcases hg : env.gen (buildPromptV1 env.body) with st | _ | t
  · exact Or.inl ⟨"Gemini API error: " ++ toString st, by simp [hk, hg]⟩
  · exact Or.inl ⟨"Invalid response from Gemini API", by simp [hk, hg]⟩
  rcases hp : env.parse (cleanupV1 t) with _ | j
  · exact Or.inl ⟨"Failed to parse AI-generated questions", by simp [hk, hg, hp]⟩
  cases j with
  | arr xs =>
    cases xs with
    | nil =>
      exact Or.inl ⟨"AI did not generate valid questions", by simp [hk, hg, hp]⟩
    | cons a as =>
      cases hval : validateV1 0 (a :: as) with
      | error m =>
        exact Or.inl ⟨m, by simp [hk, hg, hp, hval]⟩
      | ok vqs =>
        exact Or.inr ⟨a :: as, vqs, by simp [hk, hg, hp], by simp, hval,
          by simp [hk, hg, hp, hval]⟩
  | null =>
    exact Or.inl ⟨"AI did not generate valid questions", by simp [hk, hg, hp]⟩
  | undefined =>
    exact Or.inl ⟨"AI did not generate valid questions", by simp [hk, hg, hp]⟩
  | bool b =>
    exact Or.inl ⟨"AI did not generate valid questions", by simp [hk, hg, hp]⟩
  | num v =>
    exact Or.inl ⟨"AI did not generate valid questions", by simp [hk, hg, hp]⟩
  | str st =>
    exact Or.inl ⟨"AI did not generate valid questions", by simp [hk, hg, hp]⟩
  | obj fs =>
    exact Or.inl ⟨"AI did not generate valid questions", by simp [hk, hg, hp]⟩

theorem bodyV2_cases (env : Env) (store : Store) :
    (∃ m, handlerV2Body env store = .error (m, store)) ∨
    (∃ user xs, env.authUser = some user ∧ v2Parsed env = some xs ∧ xs ≠ []
      ∧ handlerV2Body env store = persistV2 env user store xs) := by
  unfold handlerV2Body v2Parsed
  rcases hA : env.authHeader with _ | a
  · exact Or.inl ⟨"No authorization header", by simp [hA]⟩
  rcases hU : env.authUser with _ | user
  · exact Or.inl ⟨"Authentication failed", by simp [hA, hU]⟩
  rcases hT : env.teacher with _ | tch
  · exact Or.inl ⟨"Access denied: Teachers only", by simp [hA, hU, hT]⟩
  rcases hk : env.apiKey with _ | k
  · exact Or.inl ⟨"OPENAI_API_KEY not configured in Supabase secrets", by simp [hA, hU, hT, hk]⟩
  rcases hg : env.gen (buildPromptV2 env.body) with st | _ | t
  · exact Or.inl ⟨"OpenAI API error: " ++ toString st, by simp [hA, hU, hT, hk, hg]⟩
  · exact Or.inl ⟨"TypeError: Cannot read properties of undefined", by simp [hA, hU, hT, hk, hg]⟩
  rcases hp : env.parse (cleanupV2 t) with _ | j
  · exact Or.inl ⟨"AI returned invalid JSON", by simp [hA, hU, hT, hk, hg, hp]⟩
  cases j with
  | arr xs =>
    cases xs with
    | nil =>
      exact Or.inl ⟨"AI did not generate valid questions", by simp [hA, hU, hT, hk, hg, hp]⟩
    | cons x ys =>
      exact Or.inr ⟨user, x :: ys, rfl, by simp [hA, hU, hT, hk, hg, hp], by simp,
        by simp [hA, hU, hT, hk, hg, hp]⟩
  | null =>
    exact Or.inl ⟨"AI did not generate valid questions", by simp [hA, hU, hT, hk, hg, hp]⟩
  | undefined =>
    exact Or.inl ⟨"AI did not generate valid questions", by simp [hA, hU, hT, hk, hg, hp]⟩
  | bool b =>
    exact Or.inl ⟨"AI did not generate valid questions", by simp [hA, hU, hT, hk, hg, hp]⟩
  | num v =>
    exact Or.inl ⟨"AI did not generate valid questions", by simp [hA, hU, hT, hk, hg, hp]⟩
  | str st =>
    exact Or.inl ⟨"AI did not generate valid questions", by simp [hA, hU, hT, hk, hg, hp]⟩
  | obj fs =>
    exact Or.inl ⟨"AI did not generate valid questions", by simp [hA, hU, hT, hk, hg, hp]⟩

theorem persistV1_out (env : Env) (user : UserInfo) (store : Store)
    (vqs : List VQuestion) :
    (∃ m s, persistV1 env user store vqs = .error (m, s)) ∨
    (∃ s, persistV1 env user store vqs =
      .ok (⟨200, some (.success ⟨store.nextId, quizTitleOf env.body,
        quizDescriptionOf env.body, roomCodeOf env.randomDigits, vqs.length⟩
        (vqs.map vqToJson))⟩, s)) := by
  rcases hq : env.quizInsertFails with _ | _
  · rcases hqq : env.questionsInsertFails with _ | _
    · exact Or.inr ⟨_, by simp [persistV1, hq, hqq]; rfl⟩
    · exact Or.inl ⟨"Failed to create quiz questions", _,
        by simp [persistV1, hq, hqq]; rfl⟩
  · exact Or.inl ⟨"Failed to create quiz", store, by simp [persistV1, hq]⟩

theorem persistV2_out (env : Env) (user : UserInfo) (store : Store)
    (xs : List Json) :
    (∃ m s, persistV2 env user store xs = .error (m, s)) ∨
    (∃ s, persistV2 env user store xs =
      .ok (⟨200, some (.success ⟨store.nextId, quizTitleOf env.body,
        quizDescriptionOf env.body, roomCodeOf env.randomDigits, xs.length⟩
        xs)⟩, s)) := by
  rcases hq : env.quizInsertFails with _ | _
  · cases hrows : buildRowsV2 store.nextId 0 xs with
    | error m =>
      exact Or.inl ⟨m, _, by simp [persistV2, hq, hrows]; rfl⟩
    | ok rows =>
      rcases hqq : env.questionsInsertFails with _ | _
      · exact Or.inr ⟨_, by simp [persistV2, hq, hqq, hrows]; rfl⟩
      · exact Or.inl ⟨"Failed to save questions", _,
        by simp [persistV2, hq, hqq, hrows]; rfl⟩
  · exact Or.inl ⟨"Failed to create quiz", store, by simp [persistV2, hq]⟩

theorem handlerV1_out (env : Env) (store : Store) (hm : env.method ≠ "OPTIONS") :
    (env.authHeader = none ∧
      handlerV1 env store = (⟨401, some (.failure "No authorization header")⟩, store)) ∨
    ((∃ a, env.authHeader = some a) ∧ env.authUser = none ∧
      handlerV1 env store = (⟨401, some (.failure "Authentication failed")⟩, store)) ∨
    ((∃ a, env.authHeader = some a) ∧ (∃ u, env.authUser = some u)
      ∧ env.teacher = none ∧
      handlerV1 env store = (⟨403, some (.failure "Access denied: Teachers only")⟩, store)) ∨
    ((∃ a, env.authHeader = some a) ∧ (∃ u, env.authUser = some u)
      ∧ (∃ tc, env.teacher = some tc) ∧
      ∃ m s, handlerV1 env store = (⟨500, some (.failure m)⟩, s)) ∨
    ((∃ a, env.authHeader = some a) ∧ (∃ u, env.authUser = some u)
      ∧ (∃ tc, env.teacher = some tc) ∧
      ∃ qz qs s, handlerV1 env store = (⟨200, some (.success qz qs)⟩, s)
      ∧ qz.questionsCount = qs.length ∧ 1 ≤ qs.length) := by
  unfold handlerV1
  rw [if_neg hm]
  rcases hA : env.authHeader with _ | a
  · exact Or.inl ⟨rfl, rfl⟩
  rcases hU : env.authUser with _ | user
  · exact Or.inr (Or.inl ⟨⟨a, rfl⟩, rfl, rfl⟩)
  rcases hT : env.teacher with _ | tch
  · exact Or.inr (Or.inr (Or.inl ⟨⟨a, rfl⟩, ⟨user, rfl⟩, rfl, rfl⟩))
  rcases bodyV1_cases env user store with ⟨m, hb⟩ | ⟨xs, vqs, hp, hne, hval, hb⟩
  · refine Or.inr (Or.inr (Or.inr (Or.inl
      ⟨⟨a, rfl⟩, ⟨user, rfl⟩, ⟨tch, rfl⟩, m, store, ?_⟩)))
    simp [hb]
  · rcases persistV1_out env user store vqs with ⟨m, s, hps⟩ | ⟨s, hps⟩
    · refine Or.inr (Or.inr (Or.inr (Or.inl
        ⟨⟨a, rfl⟩, ⟨user, rfl⟩, ⟨tch, rfl⟩, m, s, ?_⟩)))
      simp [hb, hps]
    · refine Or.inr (Or.inr (Or.inr (Or.inr
        ⟨⟨a, rfl⟩, ⟨user, rfl⟩, ⟨tch, rfl⟩,
          ⟨store.nextId, quizTitleOf env.body, quizDescriptionOf env.body,
          roomCodeOf env.randomDigits, vqs.length⟩, vqs.map vqToJson, s,
          by simp [hb, hps], by simp [List.length_map], ?_⟩)))
      have hlen := validateV1_length xs 0 vqs hval
      have hpos : xs.length ≠ 0 := fun h0 => hne (List.eq_nil_of_length_eq_zero h0)
      rw [List.length_map, hlen]
      omega

theorem handlerV2_out (env : Env) (store : Store) (hm : env.method ≠ "OPTIONS") :
    (∃ m s, handlerV2 env store = (⟨500, some (.failure m)⟩, s)) ∨
    (∃ qz qs s, handlerV2 env store = (⟨200, some (.success qz qs)⟩, s)
      ∧ qz.questionsCount = qs.length ∧ 1 ≤ qs.length) := by
  unfold handlerV2
  rw [if_neg hm]
  rcases bodyV2_cases env store with ⟨m, hb⟩ | ⟨user, xs, hU, hp, hne, hb⟩
  · exact Or.inl ⟨m, store, by simp [hb]⟩
  · rcases persistV2_out env user store xs with ⟨m, s, hps⟩ | ⟨s, hps⟩
    · exact Or.inl ⟨m, s, by simp [hb, hps]⟩
    · refine Or.inr ⟨⟨store.nextId, quizTitleOf env.body, quizDescriptionOf env.body,
        roomCodeOf env.randomDigits, xs.length⟩, xs, s, by simp [hb, hps], rfl, ?_⟩
      have hpos : xs.length ≠ 0 := fun h0 => hne (List.eq_nil_of_length_eq_zero h0)
      omega

theorem filter_fresh (l : List QuizRow) (row : QuizRow) (n : Nat)
    (h : ∀ q ∈ l, q.id ≠ n) (hrow : row.id = n) :
    (l ++ [row]).filter (fun q => q.id != n) = l := by
  rw [List.filter_append]
  have h1 : l.filter (fun q => q.id != n) = l :=
    List.filter_eq_self.mpr (fun a ha => by simpa using h a ha)
  have h2 : [row].filter (fun q => q.id != n) = [] := by
    simp [List.filter, hrow]
  rw [h1, h2, List.append_nil]

theorem persistV1_c3 (env : Env) (user : UserInfo) (store : Store)
    (vqs : List VQuestion) (hqq : env.questionsInsertFails = true)
    (hfresh : ∀ q ∈ store.quizzes, q.id ≠ store.nextId) :
    ∃ m s, persistV1 env user store vqs = .error (m, s)
      ∧ s.quizzes = store.quizzes ∧ s.questions = store.questions := by
  rcases hq : env.quizInsertFails with _ | _
  · refine ⟨"Failed to create quiz questions",
      ⟨store.quizzes, store.questions, store.nextId + 1⟩, ?_, rfl, rfl⟩
    have hf := filter_fresh store.quizzes
      ⟨store.nextId, quizTitleOf env.body, quizDescriptionOf env.body,
       env.body.timePerQuestion, roomCodeOf env.randomDigits, user.id,
       "classnode"⟩ store.nextId hfresh rfl
    simp [persistV1, hq, hqq, hf]
  · exact ⟨"Failed to create quiz", store, by simp [persistV1, hq], rfl, rfl⟩

theorem persistV2_c3 (env : Env) (user : UserInfo) (store : Store)
    (xs : List Json) (rows : List QuestionRow)
    (hqq : env.questionsInsertFails = true)
    (hfresh : ∀ q ∈ store.quizzes, q.id ≠ store.nextId)
    (hrows : buildRowsV2 store.nextId 0 xs = .ok rows) :
    ∃ m s, persistV2 env user store xs = .error (m, s)
      ∧ s.quizzes = store.quizzes ∧ s.questions = store.questions := by
  rcases hq : env.quizInsertFails with _ | _
  · refine ⟨"Failed to save questions",
      ⟨store.quizzes, store.questions, store.nextId + 1⟩, ?_, rfl, rfl⟩
    have hf := filter_fresh store.quizzes
      ⟨store.nextId, quizTitleOf env.body, quizDescriptionOf env.body,
       env.body.timePerQuestion, roomCodeOf env.randomDigits, user.id,
       "classnode"⟩ store.nextId hfresh rfl
    simp [persistV2, hq, hqq, hrows, hf]
  · exact ⟨"Failed to create quiz", store, by simp [persistV2, hq], rfl, rfl⟩

theorem v2Parsed_src (env : Env) (xs : List Json)
    (h : v2Parsed env = some xs) :
    ∃ t, env.parse (cleanupV2 t) = some (.arr xs) := by
  unfold v2Parsed at h
  split at h
  · split at h
    · rw [Option.some.injEq] at h
      subst h
      exact ⟨_, by assumption⟩
    · exact absurd h (by simp)
  · exact absurd h (by simp)

theorem handlerV1_c3 (env : Env) (store : Store) (hm : env.method ≠ "OPTIONS")
    (hfresh : ∀ q ∈ store.quizzes, q.id ≠ store.nextId)
    (hqq : env.questionsInsertFails = true) :
    (handlerV1 env store).2.quizzes = store.quizzes
      ∧ (handlerV1 env store).2.questions = store.questions
      ∧ isFailB (handlerV1 env store).1 = true := by
  unfold handlerV1
  rw [if_neg hm]
  rcases hA : env.authHeader with _ | a
  · exact ⟨rfl, rfl, rfl⟩
  rcases hU : env.authUser with _ | user
  · exact ⟨rfl, rfl, rfl⟩
  rcases hT : env.teacher with _ | tch
  · exact ⟨rfl, rfl, rfl⟩
  rcases bodyV1_cases env user store with ⟨m, hb⟩ | ⟨xs, vqs, hp, hne, hval, hb⟩
  · simp [hb, isFailB]
  · rcases persistV1_c3 env user store vqs hqq hfresh with ⟨m, s, hps, hsq, hsqs⟩
    simp [hb, hps, isFailB, hsq, hsqs]

theorem handlerV2_c3 (env : Env) (store : Store) (hm : env.method ≠ "OPTIONS")
    (hfresh : ∀ q ∈ store.quizzes, q.id ≠ store.nextId)
    (hqq : env.questionsInsertFails = true)
    (hpar : parseArrOk env) :
    (handlerV2 env store).2.quizzes = store.quizzes
      ∧ (handlerV2 env store).2.questions = store.questions
      ∧ isFailB (handlerV2 env store).1 = true := by
  unfold handlerV2
  rw [if_neg hm]
  rcases bodyV2_cases env store with ⟨m, hb⟩ | ⟨user, xs, hU, hp, hne, hb⟩
  · simp [hb, isFailB]
  · rcases v2Parsed_src env xs hp with ⟨t, hsrc⟩
    have hxs : ∀ q ∈ xs, q ≠ Json.null ∧ q ≠ Json.undefined := hpar _ xs hsrc
    rcases buildRowsV2_ok xs hxs store.nextId 0 with ⟨rows, hrows⟩
    rcases persistV2_c3 env user store xs rows hqq hfresh hrows
      with ⟨m, s, hps, hsq, hsqs⟩
    simp [hb, hps, isFailB, hsq, hsqs]

/-! ### Concrete fixtures used by counterexamples and witnesses -/

/-! ### Claim C1 -/

/-- Claim C1 counterexample: with `numQuestions = 3` and a model answer
parsing to 2 well-formed questions, the Gemini pipeline succeeds with a
`questions` array of length 2 and `questionsCount = 2`, not 3. -/

theorem c1_counterexample :
    envOK.body.numQuestions = 3
      ∧ respQuestionsLen (handlerV1 envOK store0).1 = some 2
      ∧ respCount (handlerV1 envOK store0).1 = some 2 := ⟨rfl, rfl, rfl⟩

/-- Claim C1, amended: in both pipeline variants, a success response's
`quiz.questionsCount` always equals the length of the returned
`questions` array, and that length is at least 1; but it is the number
of questions the model actually returned, which is never checked against
`numQuestions`. -/

theorem c1_amended (env : Env) (store : Store) (qz : QuizSummary)
    (qs : List Json) :
    ((handlerV1 env store).1.body = some (.success qz qs) →
      qz.questionsCount = qs.length ∧ 1 ≤ qs.length)
    ∧ ((handlerV2 env store).1.body = some (.success qz qs) →
      qz.questionsCount = qs.length ∧ 1 ≤ qs.length) := by
  constructor
  · intro h
    by_cases hm : env.method = "OPTIONS"
    · rw [show handlerV1 env store = (⟨200, none⟩, store) from by
        simp [handlerV1, hm]] at h
      simp at h
    · rcases handlerV1_out env store hm with
        ⟨_, he⟩ | ⟨_, _, he⟩ | ⟨_, _, _, he⟩ | ⟨_, _, _, m, s, he⟩ |
        ⟨_, _, _, qz2, qs2, s, he, hcount, hlen⟩
      · rw [he] at h; simp at h
      · rw [he] at h; simp at h
      · rw [he] at h; simp at h
      · rw [he] at h; simp at h
      · rw [he] at h
        rw [Option.some.injEq] at h
        injection h with h1 h2
        subst h1
        subst h2
        exact ⟨hcount, hlen⟩
  · intro h
    by_cases hm : env.method = "OPTIONS"
    · rw [show handlerV2 env store = (⟨200, none⟩, store) from by
        simp [handlerV2, hm]] at h
      simp at h
    · rcases handlerV2_out env store hm with ⟨m, s, he⟩ |
        ⟨qz2, qs2, s, he, hcount, hlen⟩
      · rw [he] at h; simp at h
      · rw [he] at h
        rw [Option.some.injEq] at h
        injection h with h1 h2
        subst h1
        subst h2
        exact ⟨hcount, hlen⟩

/-- Claim C1 witness: a concrete success run of the amended statement. -/

theorem c1_amended_witness :
    respCount (handlerV1 envOK store0).1 = respQuestionsLen (handlerV1 envOK store0).1 := by
  have h := (c1_amended envOK store0
    ⟨1, quizTitleOf envOK.body, quizDescriptionOf envOK.body, "ABCDEF", 2⟩
    [vqToJson ⟨.str "Q", [.str "a", .str "b", .str "c", .str "d"], 0⟩,
     vqToJson ⟨.str "Q", [.str "a", .str "b", .str "c", .str "d"], 0⟩]).1 (by rfl)
  rw [show respCount (handlerV1 envOK store0).1 = some 2 from rfl,
      show respQuestionsLen (handlerV1 envOK store0).1 = some 2 from rfl]

/-! ### Claim C2 -/

/-- Claim C2 counterexample: the v2 pipeline persists a parsed batch
whose single question has an `options` array of length 3 — structural
validation does not precede persistence in that variant. -/

theorem c2_counterexample :
    claimViolationB qBad3 = true
      ∧ (handlerV2 envBadOpts store0).2.questions
          = [⟨1, .str "Q", .arr [.str "a", .str "b", .str "c"], .num 0, 1⟩]
      ∧ respCount (handlerV2 envBadOpts store0).1 = some 1 := ⟨by decide, rfl, rfl⟩

/-- Claim C2, amended: in the Gemini variant, a parsed batch containing
any question that violates `len(options) == 4` or
`0 ≤ correctOption < len(options)` is never persisted — the store is
returned unchanged; the OpenAI v2 variant performs no such validation
(see the counterexample). -/

theorem c2_amended (env : Env) (store : Store) (xs : List Json)
    (hp : v1Parsed env = some xs)
    (hviol : ∃ q ∈ xs, claimViolationB q = true) :
    (handlerV1 env store).2 = store := by
  by_cases hm : env.method = "OPTIONS"
  · simp [handlerV1, hm]
  unfold handlerV1
  rw [if_neg hm]
  rcases hA : env.authHeader with _ | a
  · rfl
  rcases hU : env.authUser with _ | user
  · rfl
  rcases hT : env.teacher with _ | tch
  · rfl
  rcases bodyV1_cases env user store with ⟨m, hb⟩ | ⟨xs2, vqs, hp2, hne, hval, hb⟩
  · simp [hb]
  · rw [hp2] at hp
    injection hp with hxx
    subst hxx
    have hbad := validateV1_err_of_violation xs2 0 hviol
    rw [hval] at hbad
    simp [Except.isOk, Except.toBool] at hbad

/-- Claim C2 witness: the Gemini handler leaves the store untouched on
the 3-option batch that v2 persists. -/

theorem c2_amended_witness : (handlerV1 envBadOpts store0).2 = store0 :=
  c2_amended envBadOpts store0 [qBad3] rfl
    ⟨qBad3, List.mem_cons_self qBad3 [], by decide⟩

/-! ### Claim C3 -/

/-- Claim C3: in both variants, when the quiz insert succeeds but the
question-batch insert fails, the handler's compensating delete leaves no
quiz row (and no question row) created by the request, and a failure
response is returned.  (Hypotheses: the request is not a CORS preflight;
existing quiz rows do not collide with the id the store would assign;
the parser yields no `null` array elements, which in v2 would raise a
TypeError between the two inserts so that the batch insert is never
attempted.) -/

theorem c3_compensation (env : Env) (store : Store)
    (hm : env.method ≠ "OPTIONS")
    (hfresh : ∀ q ∈ store.quizzes, q.id ≠ store.nextId)
    (hqq : env.questionsInsertFails = true)
    (hpar : parseArrOk env) :
    ((handlerV1 env store).2.quizzes = store.quizzes
      ∧ (handlerV1 env store).2.questions = store.questions
      ∧ isFailB (handlerV1 env store).1 = true)
    ∧ ((handlerV2 env store).2.quizzes = store.quizzes
      ∧ (handlerV2 env store).2.questions = store.questions
      ∧ isFailB (handlerV2 env store).1 = true) :=
  ⟨handlerV1_c3 env store hm hfresh hqq,
   handlerV2_c3 env store hm hfresh hqq hpar⟩

/-- Claim C3 witness: a run in which everything succeeds except the
question-batch insert leaves the empty store unchanged, in both
variants. -/

theorem c3_compensation_witness :
    (handlerV1 envQFail store0).2.quizzes = []
      ∧ isFailB (handlerV1 envQFail store0).1 = true
      ∧ (handlerV2 envQFail store0).2.quizzes = []
      ∧ isFailB (handlerV2 envQFail store0).1 = true := by
  have hpar : parseArrOk envQFail := by
    intro s xs h
    have h2 : Json.arr [qGood, qGood] = Json.arr xs := Option.some.inj h
    have hxs : xs = [qGood, qGood] := (Json.arr.inj h2).symm
    subst hxs
    intro q hq
    simp at hq
    subst hq
    exact ⟨by simp [qGood], by simp [qGood]⟩
  have h := c3_compensation envQFail store0 (by decide)
    (by intro q hq; cases hq) rfl hpar
  exact ⟨h.1.1, h.1.2.2, h.2.1, h.2.2.2⟩

/-! ### Claim C4 -/

/-- Claim C4 counterexample: `timePerQuestion = 0` is not a positive
integer, yet `handleSubmit` performs no local check on it and proceeds
to the network calls (and the server never range-checks it either). -/

theorem c4_counterexample :
    fdTime0.timePerQuestion ≤ 0
      ∧ handleSubmitClient fdTime0 = SubmitAction.network fdTime0 :=
  ⟨by decide, rfl⟩

/-- Claim C4, amended: the client-side `handleSubmit` rejects
`numQuestions` outside 1..20 locally, before any network call, and lets
1..20 through (given non-blank subject and topic); `timePerQuestion` is
not validated anywhere. -/

theorem c4_amended (fd : QuizParams) :
    (fd.numQuestions < 1 ∨ 20 < fd.numQuestions →
      ∃ m, handleSubmitClient fd = .localError m)
    ∧ (jsTrimS fd.subject ≠ "" → jsTrimS fd.topic ≠ "" →
      1 ≤ fd.numQuestions → fd.numQuestions ≤ 20 →
      handleSubmitClient fd = .network fd) := by
  constructor
  · intro hrange
    unfold handleSubmitClient
    by_cases hs : (jsTrimS fd.subject == "" || jsTrimS fd.topic == "") = true
    · rw [if_pos hs]
      exact ⟨_, rfl⟩
    · rw [if_neg hs]
      have hr : (decide (fd.numQuestions < 1)
          || decide (20 < fd.numQuestions)) = true := by
        rcases hrange with h | h
        · simp [h]
        · simp [h]
      rw [if_pos hr]
      exact ⟨_, rfl⟩
  · intro hsub htop h1 h2
    unfold handleSubmitClient
    have hs : (jsTrimS fd.subject == "" || jsTrimS fd.topic == "") = false := by
      simp [hsub, htop]
    rw [if_neg (by simp [hs])]
    have hr : (decide (fd.numQuestions < 1)
        || decide (20 < fd.numQuestions)) = false := by
      simp only [Bool.or_eq_false_iff, decide_eq_false_iff_not, not_lt]
      exact ⟨h1, h2⟩
    rw [if_neg (by simp [hr])]

/-- Claim C4 witness: `numQuestions = 0` fails locally while the
boundary values 1 and 20 pass the client check. -/

theorem c4_amended_witness :
    (∃ m, handleSubmitClient fdLow = .localError m)
      ∧ handleSubmitClient fdOne = .network fdOne
      ∧ handleSubmitClient fdTwenty = .network fdTwenty :=
  ⟨(c4_amended fdLow).1 (Or.inl (by decide)),
   (c4_amended fdOne).2 (by decide) (by decide) (by decide) (by decide),
   (c4_amended fdTwenty).2 (by decide) (by decide) (by decide) (by decide)⟩

/-! ### Claim C5 -/

/-- Claim C5 counterexample: for a request with no Authorization header,
the v2 handler returns status 500 (its auth failures are thrown into
the catch-all), not the 401 the claim requires; the Gemini handler does
return 401. -/

theorem c5_counterexample :
    (handlerV2 envNoAuth store0).1.status = 500
      ∧ isFailB (handlerV2 envNoAuth store0).1 = true
      ∧ (handlerV1 envNoAuth store0).1.status = 401 := ⟨rfl, rfl, rfl⟩

/-- Claim C5, amended: the Gemini handler maps failures to 401 exactly
for missing/rejected credentials, 403 exactly for non-teachers, and 500
for everything else, with a `{success: false, error}` body exactly on
non-200 responses; the v2 handler returns 500 for every failure,
including authentication and authorization ones. -/

theorem c5_amended (env : Env) (store : Store) (hm : env.method ≠ "OPTIONS") :
    ((handlerV1 env store).1.status = 401 ↔
        env.authHeader = none ∨ env.authUser = none)
    ∧ ((handlerV1 env store).1.status = 403 ↔
        env.authHeader ≠ none ∧ env.authUser ≠ none ∧ env.teacher = none)
    ∧ (isFailB (handlerV1 env store).1 = true ↔
        (handlerV1 env store).1.status ≠ 200)
    ∧ ((handlerV1 env store).1.status = 200 ∨ (handlerV1 env store).1.status = 401
        ∨ (handlerV1 env store).1.status = 403
        ∨ (handlerV1 env store).1.status = 500)
    ∧ (isFailB (handlerV2 env store).1 = true →
        (handlerV2 env store).1.status = 500) := by
  have hv2 : isFailB (handlerV2 env store).1 = true →
      (handlerV2 env store).1.status = 500 := by
    rcases handlerV2_out env store hm with ⟨m, s, he2⟩ | ⟨qz, qs, s, he2, _, _⟩
    · rw [he2]; intro _; rfl
    · rw [he2]; intro hfail; simp [isFailB] at hfail
  rcases handlerV1_out env store hm with
    ⟨hA, he⟩ | ⟨⟨a, hA⟩, hU, he⟩ | ⟨⟨a, hA⟩, ⟨u, hU⟩, hT, he⟩ |
    ⟨⟨a, hA⟩, ⟨u, hU⟩, ⟨tc, hT⟩, m, s, he⟩ |
    ⟨⟨a, hA⟩, ⟨u, hU⟩, ⟨tc, hT⟩, qz, qs, s, he, hcnt, hlen⟩
  · rw [he]
    exact ⟨by simp [hA], by simp [hA], by simp [isFailB], by simp, hv2⟩
  · rw [he]
    exact ⟨by simp [hA, hU], by simp [hA, hU], by simp [isFailB], by simp, hv2⟩
  · rw [he]
    exact ⟨by simp [hA, hU], by simp [hA, hU, hT], by simp [isFailB], by simp, hv2⟩
  · rw [he]
    exact ⟨by simp [hA, hU], by simp [hA, hU, hT], by simp [isFailB], by simp, hv2⟩
  · rw [he]
    exact ⟨by simp [hA, hU], by simp [hA, hU, hT], by simp [isFailB], by simp, hv2⟩

/-- Claim C5 witness: at the missing-header input, the amended theorem
yields 401 for the Gemini handler and 500 for v2. -/

theorem c5_amended_witness :
    (handlerV1 envNoAuth store0).1.status = 401
      ∧ (handlerV2 envNoAuth store0).1.status = 500 := by
  have h := c5_amended envNoAuth store0 (by decide)
  exact ⟨h.1.mpr (Or.inl rfl), h.2.2.2.2 (by rfl)⟩

/-! ### Claim C6 -/

/-- Claim C6 counterexample: with identical caller input (no
Authorization header) the two variants respond with different statuses,
so they differ in more than the generation wire format. -/

theorem c6_counterexample :
    (handlerV1 envNoAuth store0).1.status = 401
      ∧ (handlerV2 envNoAuth store0).1.status = 500
      ∧ (handlerV1 envNoAuth store0).1.status
          ≠ (handlerV2 envNoAuth store0).1.status := ⟨rfl, rfl, by decide⟩

/-- Claim C6, amended: on the happy path the variants do coincide: for
the same authenticated teacher, parameters, store and equivalent raw
model text — provided the text carries no markdown fences (v2 does not
strip them) and every parsed question is strictly well-formed (v2 does
not validate) — the two handlers return identical responses and
identical stores.  Outside that path they differ: auth failures map to
401/403 only in the Gemini variant, and fence stripping and structural
validation exist only there. -/

theorem c6_amended (env : Env) (store : Store) (t : String) (xs : List Json)
    (hA : ∃ a, env.authHeader = some a) (hU : ∃ u, env.authUser = some u)
    (hT : ∃ tc, env.teacher = some tc) (hK : ∃ k, env.apiKey = some k)
    (hg1 : env.gen (buildPromptV1 env.body) = .ok t)
    (hg2 : env.gen (buildPromptV2 env.body) = .ok t)
    (hbt : ∀ c ∈ t.toList, c ≠ btChar)
    (hp : env.parse (jsTrimS t) = some (.arr xs))
    (hne : xs ≠ [])
    (hwf : ∀ q ∈ xs, WFq q)
    (hq : env.quizInsertFails = false)
    (hqq : env.questionsInsertFails = false) :
    handlerV1 env store = handlerV2 env store := by
  have hclean : cleanupV1 t = jsTrimS t := by
    unfold cleanupV1
    have hfj : fjToks = btChar :: "``json".toList := by decide
    have hft : ftToks = btChar :: "``".toList := by decide
    rw [hfj, hft, stripTok_no_bt _ _ hbt, stripTok_no_bt _ _ hbt]
    rfl
  obtain ⟨a, ha⟩ := hA
  obtain ⟨u, hu⟩ := hU
  obtain ⟨tc, htc⟩ := hT
  obtain ⟨k, hk⟩ := hK
  rcases validateV1_wf xs 0 hwf with ⟨vqs, hval, hmap, hrows⟩
  have hlen : vqs.length = xs.length := by rw [← hmap, List.length_map]
  rcases hxs : xs with _ | ⟨x, ys⟩
  · exact absurd hxs hne
  subst hxs
  by_cases hm : env.method = "OPTIONS"
  · simp [handlerV1, handlerV2, hm]
  unfold handlerV1 handlerV2
  rw [if_neg hm, if_neg hm]
  have hb1 : handlerV1Body env u store = persistV1 env u store vqs := by
    unfold handlerV1Body
    simp [hk, hg1, hclean, hp, hval]
  have hb2 : handlerV2Body env store = persistV2 env u store (x :: ys) := by
    unfold handlerV2Body
    simp [ha, hu, htc, hk, hg2, cleanupV2, hp]
  simp only [ha, hu, htc, hb1, hb2]
  simp [persistV1, persistV2, hq, hqq, hrows, hmap, hlen]

/-- Claim C6 witness: a concrete happy-path input on which the two
handlers agree exactly. -/

theorem c6_amended_witness : handlerV1 envOK store0 = handlerV2 envOK store0 := by
  have hwf : ∀ q ∈ [qGood, qGood], WFq q := by
    intro q hq
    simp at hq
    subst hq
    exact ⟨"Q", [.str "a", .str "b", .str "c", .str "d"], 0, rfl, by decide,
      rfl, le_refl 0, by norm_num⟩
  exact c6_amended envOK store0 "[]" [qGood, qGood]
    ⟨"Bearer t", rfl⟩ ⟨⟨"u1", "t@example.com"⟩, rfl⟩ ⟨"u1", rfl⟩ ⟨"k", rfl⟩
    rfl rfl (by decide) rfl (by simp) hwf rfl rfl

/-! ### Claim C7 -/

/-- Claim C7 counterexample: the validator accepts a question whose
`correctOption` is the non-integer 1/2 (JS `typeof 0.5 === "number"`
and `0 ≤ 0.5 ≤ 3`), which the claimed contract rejects. -/

theorem c7_counterexample :
    (validateV1 0 [qHalf]).isOk = true ∧ specValidB qHalf = false := by
  constructor
  · decide
  · decide

/-- Claim C7, amended: the validator accepts a batch iff every element
is non-null with truthy `text`, an `options` array of length exactly 4
(element types unchecked), and a numeric `correctOption` in `[0,3]`
(integrality unchecked); any violating element fails the whole batch,
so no subset is salvaged. -/

theorem c7_amended (xs : List Json) :
    (validateV1 0 xs).isOk = true ↔ ∀ q ∈ xs, codeValid q = true :=
  validateV1_ok_iff xs 0

/-- Claim C7 witness: a concrete well-formed batch is accepted via the
amended equivalence. -/

theorem c7_amended_witness : (validateV1 0 [qGood]).isOk = true :=
  (c7_amended [qGood]).mpr (by intro q hq; simp at hq; subst hq; decide)

/-! ### Claim C8 -/

theorem jsTrimL_no_ws_ends (x : List Char) (a b : Char)
    (ha : jsWS a = false) (hb : jsWS b = false) :
    jsTrimL (a :: (x ++ [b])) = a :: (x ++ [b]) := by
  unfold jsTrimL
  have h1 : List.dropWhile jsWS (a :: (x ++ [b])) = a :: (x ++ [b]) := by
    simp [List.dropWhile, ha]
  rw [h1]
  have h2 : (a :: (x ++ [b])).reverse = b :: (x.reverse ++ [a]) := by simp
  rw [h2]
  have h3 : List.dropWhile jsWS (b :: (x.reverse ++ [a]))
      = b :: (x.reverse ++ [a]) := by
    simp [List.dropWhile, hb]
  rw [h3, ← h2, List.reverse_reverse]

/-- Claim C8 counterexample: a fenced completion is unwrapped by the
Gemini handler's cleanup but passed through verbatim (fences intact) by
the v2 handler, which only trims whitespace. -/

theorem c8_counterexample :
    cleanupV1 "```json\n[1]\n```" = "[1]"
      ∧ cleanupV2 "```json\n[1]\n```" = "```json\n[1]\n```"
      ∧ cleanupV2 "```json\n[1]\n```" ≠ "[1]" := ⟨rfl, rfl, by decide⟩

/-- Claim C8, amended: for every backtick-free payload `s`, the Gemini
handler's cleanup maps the fenced completion
`"```json\n" ++ s ++ "\n```"` to `s.trim()`, while the v2 handler
returns the fenced completion unchanged. -/

theorem c8_amended (s : String) (hbt : ∀ c ∈ s.toList, c ≠ btChar) :
    cleanupV1 ("```json\n" ++ s ++ "\n```") = jsTrimS s
      ∧ cleanupV2 ("```json\n" ++ s ++ "\n```") = "```json\n" ++ s ++ "\n```" := by
  have htl : ("```json\n" ++ s ++ "\n```").toList
      = ("```json\n".toList ++ s.toList) ++ "\n```".toList := rfl
  have hfj : "```json\n".toList = fjToks ++ ['\n'] := by decide
  have hassoc : ("```json\n".toList ++ s.toList) ++ "\n```".toList
      = (fjToks ++ ['\n']) ++ (s.toList ++ "\n```".toList) := by
    rw [hfj, List.append_assoc]
  have hfjbt : fjToks = btChar :: "``json".toList := by decide
  have hftbt : ftToks = btChar :: "``".toList := by decide
  have h1 : stripTok fjToks (("```json\n".toList ++ s.toList) ++ "\n```".toList)
      = s.toList ++ "\n```".toList := by
    rw [hassoc, stripTok_head fjToks (by decide), hfjbt,
        stripTok_append_no_bt _ _ _ hbt,
        show stripTok (btChar :: "``json".toList) "\n```".toList
          = "\n```".toList from by decide]
  have h2 : stripTok ftToks (s.toList ++ "\n```".toList) = s.toList ++ ['\n'] := by
    rw [hftbt, stripTok_append_no_bt _ _ _ hbt,
        show stripTok (btChar :: "``".toList) "\n```".toList = ['\n'] from by decide]
  constructor
  · unfold cleanupV1
    rw [htl, h1, h2]
    unfold jsTrimS
    rw [show (String.mk (s.toList ++ ['\n'])).toList = s.toList ++ ['\n'] from rfl,
        jsTrimL_append_ws s.toList '\n' (by decide)]
  · have hws : jsWS btChar = false := by decide
    have d1 : "```json\n".toList = btChar :: "``json\n".toList := by decide
    have d2 : "\n```".toList = "\n``".toList ++ [btChar] := by decide
    have hshape : ("```json\n" ++ s ++ "\n```").toList
        = btChar :: (("``json\n".toList ++ s.toList ++ "\n``".toList) ++ [btChar]) := by
      rw [htl, d1, d2]
      simp [List.append_assoc]
    unfold cleanupV2 jsTrimS
    rw [hshape, jsTrimL_no_ws_ends _ _ _ hws hws, ← hshape]
    rfl

/-- Claim C8 witness: the amended statement at the payload `"[1]"`. -/

theorem c8_amended_witness :
    cleanupV1 ("```json\n" ++ "[1]" ++ "\n```") = jsTrimS "[1]"
      ∧ cleanupV2 ("```json\n" ++ "[1]" ++ "\n```") = "```json\n" ++ "[1]" ++ "\n```" :=
  c8_amended "[1]" (by decide)

/-! ### Claim C9 -/

/-- Claim C9 counterexample: `Math.random() = 0.5` has the exact base-36
expansion `"0.i"`, whose fractional digit list is `[18]`; the generator
then produces the 1-character room code `"I"`, not a 6-character one. -/

theorem c9_counterexample :
    roomCodeOf [18] = "I" ∧ (roomCodeOf [18]).length ≠ 6 ∧ (18 : Nat) < 36 :=
  ⟨rfl, by decide, by decide⟩

/-- Claim C9, amended: every room code consists only of uppercase
letters and digits and has length at most 6; the length is exactly 6
only when the random draw's base-36 expansion has at least 6 fractional
digits. -/

theorem c9_amended (digits : List Nat) (h : ∀ d ∈ digits, d < 36) :
    (roomCodeOf digits).length ≤ 6
      ∧ (6 ≤ digits.length → (roomCodeOf digits).length = 6)
      ∧ ∀ c ∈ (roomCodeOf digits).toList, isUpperAlnum c = true := by
  have hkey : ∀ d : Nat, d < 36 → isUpperAlnum (Char.toUpper (base36Char d)) = true := by
    decide
  cases digits with
  | nil =>
    refine ⟨by decide, ?_, ?_⟩
    · intro h6
      exact absurd h6 (by decide)
    · intro c hc
      have hc2 : c ∈ ([] : List Char) := hc
      cases hc2
  | cons d ds =>
    have hchars : roomCodeChars (d :: ds)
        = (((d :: ds).map base36Char).take 6).map Char.toUpper := rfl
    refine ⟨?_, ?_, ?_⟩
    · show (roomCodeChars (d :: ds)).length ≤ 6
      rw [hchars, List.length_map, List.length_take]
      exact min_le_left _ _
    · intro h6
      show (roomCodeChars (d :: ds)).length = 6
      rw [hchars, List.length_map, List.length_take, List.length_map]
      exact Nat.min_eq_left (by simpa using h6)
    · intro c hc
      have hc2 : c ∈ (((d :: ds).map base36Char).take 6).map Char.toUpper := hc
      rcases List.mem_map.mp hc2 with ⟨c0, hc0, rfl⟩
      have hc0b : c0 ∈ (d :: ds).map base36Char := List.take_subset _ _ hc0
      rcases List.mem_map.mp hc0b with ⟨d0, hd0, rfl⟩
      exact hkey d0 (h d0 hd0)

/-- Claim C9 witness: with at least six fractional digits the room code
has length 6 (and the character property holds). -/

theorem c9_amended_witness :
    (roomCodeOf [10, 11, 12, 13, 14, 15, 20]).length = 6 := by
  have h := c9_amended [10, 11, 12, 13, 14, 15, 20] (by decide)
  exact h.2.1 (by decide)

/-! ### Claim C10 -/

/-- Claim C10: an empty-string `title`/`description` is treated exactly
like an omitted one — both produce the auto-generated defaults — and no
request can yield an empty persisted title or description, since the
defaults are non-empty and a caller-supplied empty string is replaced. -/

theorem c10_defaults (p : QuizParams) :
    quizTitleOf { p with title := some "" } = defaultTitle p
      ∧ quizTitleOf { p with title := none } = defaultTitle p
      ∧ quizDescriptionOf { p with description := some "" } = defaultDescription p
      ∧ quizDescriptionOf { p with description := none } = defaultDescription p
      ∧ quizTitleOf p ≠ ""
      ∧ quizDescriptionOf p ≠ "" := by
  have hdt : defaultTitle p ≠ "" := by
    intro hcon
    have h2 := congrArg String.length hcon
    simp only [defaultTitle, String.length_append] at h2
    rw [show ("AI Generated: " : String).length = 14 from rfl,
        show (" - " : String).length = 3 from rfl,
        show ("" : String).length = 0 from rfl] at h2
    omega
  have hdd : defaultDescription p ≠ "" := by
    intro hcon
    have h2 := congrArg String.length hcon
    simp only [defaultDescription, String.length_append] at h2
    rw [show ("AI-generated quiz on " : String).length = 21 from rfl,
        show (" (" : String).length = 2 from rfl,
        show (" level)" : String).length = 7 from rfl,
        show ("" : String).length = 0 from rfl] at h2
    omega
  refine ⟨rfl, rfl, rfl, rfl, ?_, ?_⟩
  · cases ht : p.title with
    | none => simpa [quizTitleOf, jsOrStr, ht] using hdt
    | some st =>
      by_cases hs : st = ""
      · simpa [quizTitleOf, jsOrStr, ht, hs] using hdt
      · simp [quizTitleOf, jsOrStr, ht, hs]
  · cases hd : p.description with
    | none => simpa [quizDescriptionOf, jsOrStr, hd] using hdd
    | some st =>
      by_cases hs : st = ""
      · simpa [quizDescriptionOf, jsOrStr, hd, hs] using hdd
      · simp [quizDescriptionOf, jsOrStr, hd, hs]

/-- Claim C10 witness: the defaults kick in at a concrete input where
the caller supplies empty strings. -/

theorem c10_defaults_witness :
    quizTitleOf { paramsEx with title := some "" } = defaultTitle paramsEx
      ∧ quizTitleOf paramsEx ≠ "" :=
  ⟨(c10_defaults paramsEx).1, (c10_defaults paramsEx).2.2.2.2.1⟩

end CNQ
